import Mathlib

/-!
Shallow embedding of `src/email_classifier_template.py`: an email
classification pipeline that classifies inbound emails with one LLM
completion call, generates an automated reply with a second call, and
dispatches each email to a category-specific mock downstream action.

The LLM provider is modelled as a deterministic function from the prompt
(the single user-role message content) to either returned text (`Except.ok`)
or a raised exception with its message (`Except.error`).  Side effects
(`logger.error` lines and mock downstream service calls) are modelled as an
explicit event trace returned alongside each value.
-/

set_option maxRecDepth 40000

namespace EmailClassifier

/-- Python `str.lower`, as applied by `classify_email` (character-wise case
mapping; ASCII suffices for the category tokens being matched). -/
def pyLower (s : String) : String := String.mk (s.data.map Char.toLower)

/-- Python `str.strip` with no argument: remove leading and trailing
whitespace. -/
def pyStrip (s : String) : String :=
  String.mk (((s.data.dropWhile Char.isWhitespace).reverse.dropWhile
    Char.isWhitespace).reverse)

/-- String prefix test used by the deterministic stub providers below to
tell the two prompts apart. -/
def startsWithStr (pre s : String) : Bool := pre.data.isPrefixOf s.data

/-- An inbound email record, as the dictionaries of `sample_emails`.  The
Python key `from` is rendered `fromAddr` because `from` is a Lean keyword. -/
structure Email where
  id : String
  fromAddr : String
  subject : String
  body : String
  timestamp : String
deriving DecidableEq, Repr

/-- The Python values that can occupy the `response_sent` field of a
processing-result dictionary: the absent value `None`, the boolean `False`
(written on the classification-failure path of `process_email`), or a
response string. -/
inductive RespSent where
  | noneV : RespSent
  | falseB : RespSent
  | str : String → RespSent
deriving DecidableEq, Repr

/-- The five module-level mock downstream service functions.  Each carries
the email id and its payload text, which may be Python `None` because the
handlers pass `generate_response`'s optional result straight through. -/
inductive Action where
  | send_complaint_response : String → Option String → Action
  | send_standard_response : String → Option String → Action
  | create_urgent_ticket : String → String → Option String → Action
  | create_support_ticket : String → Option String → Action
  | log_customer_feedback : String → Option String → Action
deriving DecidableEq, Repr

/-- Observable events of a run: `logger.error` lines emitted by the two
provider-call wrappers, and mock downstream service calls (each of which is
one `logger.info` line in the source). -/
inductive Event where
  | errorLog : String → Event
  | action : Action → Event
deriving DecidableEq, Repr

/-- The downstream mock actions contained in an event trace. -/
def actionsOf (events : List Event) : List Action :=
  events.filterMap fun ev => match ev with
    | .errorLog _ => none
    | .action a => some a

/-- The LLM provider: one chat-completion call with a single user-role
message.  The argument is the message content; `.ok` carries the first
choice's text, `.error` models a raised exception with its message.  A
`Provider` value is one deterministic stub for the external API. -/
def Provider : Type := String → Except String String

/-- `EmailProcessor.valid_categories`.  The source stores a Python set; the
list keeps the order of the set literal. -/
def valid_categories : List String :=
  ["complaint", "inquiry", "feedback", "support_request", "other"]

/-- The model name held by `EmailProcessor` (fixed, never branched on). -/
def model : String := "gpt-4o"

/-- The prompt built by `EmailProcessor.classify_email`.  Python joins the
`valid_categories` set (unspecified iteration order); the embedding uses the
literal's order.  No claim depends on the prompt text itself. -/
def classification_prompt (email : Email) : String :=
  "Please classify the following email as one of the following categories: "
    ++ String.intercalate ", " valid_categories
    ++ "\nSubject: " ++ email.subject ++ "\nBody: " ++ email.body
    ++ "Return only the category or None if classification fails (JUST THE CATEGORY, NO QUOTES)"

/-- The prompt built by `EmailProcessor.generate_response`. -/
def response_prompt (email : Email) (classification : String) : String :=
  "Generate an automated response based on email classification"
    ++ "The category is " ++ classification
    ++ "\nSubject: " ++ email.subject ++ "\nBody: " ++ email.body
    ++ "Return only the message (JUST THE MESSAGE, NO EXTRA TEXT)"

/-- `EmailProcessor.classify_email`: one provider call; on success the
returned text is stripped and lowercased and checked for membership in
`valid_categories`; a raised provider error is caught, logged with its
cause, and converted to `none`.  The second component is the emitted
event trace; the total return type models that no error propagates. -/
def classify_email (provider : Provider) (email : Email) :
    Option String × List Event :=
  match provider (classification_prompt email) with
  | .ok content =>
      let category_as_a_text := pyLower (pyStrip content)
      (if valid_categories.contains category_as_a_text then
          some category_as_a_text
        else none, [])
  | .error e => (none, [.errorLog ("Error with the LLM provider: " ++ e)])

/-- `EmailProcessor.generate_response`: one provider call; the returned text
is passed through verbatim; a raised provider error is caught, logged with
its cause, and converted to `none`. -/
def generate_response (provider : Provider) (email : Email)
    (classification : String) : Option String × List Event :=
  match provider (response_prompt email classification) with
  | .ok content => (some content, [])
  | .error e => (none, [.errorLog ("Error with the LLM provider: " ++ e)])

/-- The five handler methods of `EmailAutomationSystem`, i.e. the values of
its `response_handlers` dictionary. -/
inductive HandlerTag where
  | handle_complaint : HandlerTag
  | handle_inquiry : HandlerTag
  | handle_feedback : HandlerTag
  | handle_support_request : HandlerTag
  | handle_other : HandlerTag
deriving DecidableEq, Repr

/-- The handler lookup of `process_email`:
`self.response_handlers.get(classification, self._handle_other)` — the
dictionary maps the five category strings to their handlers and
`_handle_other` is the `dict.get` default for any other key. -/
def response_handlers_get (classification : String) : HandlerTag :=
  if classification = "complaint" then .handle_complaint
  else if classification = "inquiry" then .handle_inquiry
  else if classification = "feedback" then .handle_feedback
  else if classification = "support_request" then .handle_support_request
  else if classification = "other" then .handle_other
  else .handle_other

/-- Run one handler method.  Every handler calls
`EmailProcessor.generate_response` with its fixed category string, invokes
its mock downstream service with the email id and the (possibly absent)
response, and returns the response. -/
def run_handler (provider : Provider) (tag : HandlerTag) (email : Email) :
    Option String × List Event :=
  match tag with
  | .handle_complaint =>
      let r := generate_response provider email "complaint"
      (r.1, r.2 ++ [.action (.send_complaint_response email.id r.1)])
  | .handle_inquiry =>
      let r := generate_response provider email "inquiry"
      (r.1, r.2 ++ [.action (.send_standard_response email.id r.1)])
  | .handle_feedback =>
      let r := generate_response provider email "feedback"
      (r.1, r.2 ++ [.action (.log_customer_feedback email.id r.1)])
  | .handle_support_request =>
      let r := generate_response provider email "support_request"
      (r.1, r.2 ++ [.action (.create_support_ticket email.id r.1)])
  | .handle_other =>
      let r := generate_response provider email "other"
      (r.1, r.2 ++ [.action (.send_standard_response email.id r.1)])

/-- The per-email result dictionary assembled by `process_email`. -/
structure ProcessingResult where
  email_id : String
  success : Bool
  classification : Option String
  response_sent : RespSent
deriving DecidableEq, Repr

/-- `EmailAutomationSystem.process_email`.  Python's `if not classification:`
holds exactly when the classification is `None`: `classify_email` only
returns `None` or a member of `valid_categories`, all non-empty, so no other
falsy value occurs.  On the failure path the source writes the boolean
`False` into `response_sent`; on the success path it writes the handler's
return value, a Python `None` or a string. -/
def process_email (provider : Provider) (email : Email) :
    ProcessingResult × List Event :=
  let c := classify_email provider email
  match c.1 with
  | none =>
      ({ email_id := email.id, success := false, classification := none,
         response_sent := .falseB }, c.2)
  | some classification =>
      let handler := response_handlers_get classification
      let r := run_handler provider handler email
      ({ email_id := email.id, success := true,
         classification := some classification,
         response_sent := match r.1 with
           | none => .noneV
           | some s => .str s }, c.2 ++ r.2)

/-- The object state of an `EmailAutomationSystem`: the wrapped processor
(its provider client).  The `response_handlers` dictionary is a fixed table,
modelled by `response_handlers_get`; `process_email` reads but never writes
this state. -/
structure AutomationSystem where
  provider : Provider

/-- `process_email` as a method call: it returns the object state unchanged,
since the source method never assigns to `self`. -/
def process_email_st (sys : AutomationSystem) (email : Email) :
    AutomationSystem × (ProcessingResult × List Event) :=
  (sys, process_email sys.provider email)

/-- The loop of `run_demonstration`: process each email in list order,
threading the system state and collecting the results in order, together
with the concatenated event trace. -/
def process_all :
    AutomationSystem → List Email →
      AutomationSystem × List ProcessingResult × List Event
  | sys, [] => (sys, [], [])
  | sys, email :: rest =>
      let step := process_email_st sys email
      let tail := process_all step.1 rest
      (tail.1, step.2.1 :: tail.2.1, step.2.2 ++ tail.2.2)

/-- The first sample email of the `sample_emails` dataset. -/
def sample_email_001 : Email :=
  { id := "001"
    fromAddr := "angry.customer@example.com"
    subject := "Broken product received"
    body := "I received my order #12345 yesterday but it arrived completely damaged. This is unacceptable and I demand a refund immediately. This is the worst customer service I\x27ve experienced."
    timestamp := "2024-03-15T10:30:00Z" }

/-- The second sample email of the `sample_emails` dataset. -/
def sample_email_002 : Email :=
  { id := "002"
    fromAddr := "curious.shopper@example.com"
    subject := "Question about product specifications"
    body := "Hi, I\x27m interested in buying your premium package but I couldn\x27t find information about whether it\x27s compatible with Mac OS. Could you please clarify this? Thanks!"
    timestamp := "2024-03-15T11:45:00Z" }

/-- The third sample email of the `sample_emails` dataset. -/
def sample_email_003 : Email :=
  { id := "003"
    fromAddr := "happy.user@example.com"
    subject := "Amazing customer support"
    body := "I just wanted to say thank you for the excellent support I received from Sarah on your team. She went above and beyond to help resolve my issue. Keep up the great work!"
    timestamp := "2024-03-15T13:15:00Z" }

/-- The fourth sample email of the `sample_emails` dataset. -/
def sample_email_004 : Email :=
  { id := "004"
    fromAddr := "tech.user@example.com"
    subject := "Need help with installation"
    body := "I\x27ve been trying to install the software for the past hour but keep getting error code 5123. I\x27ve already tried restarting my computer and clearing the cache. Please help!"
    timestamp := "2024-03-15T14:20:00Z" }

/-- The fifth sample email of the `sample_emails` dataset. -/
def sample_email_005 : Email :=
  { id := "005"
    fromAddr := "business.client@example.com"
    subject := "Partnership opportunity"
    body := "Our company is interested in exploring potential partnership opportunities with your organization. Would it be possible to schedule a call next week to discuss this further?"
    timestamp := "2024-03-15T15:00:00Z" }

/-- The module-level `sample_emails` dataset, in source order. -/
def sample_emails : List Email :=
  [sample_email_001, sample_email_002, sample_email_003,
   sample_email_004, sample_email_005]

/-- `run_demonstration` without the printing: build the system, process the
five sample emails in order, and return the ordered results together with
the full event trace. -/
def run_demonstration (provider : Provider) :
    List ProcessingResult × List Event :=
  (process_all { provider := provider } sample_emails).2

/-- Whether an action is the (never-used) `create_urgent_ticket` mock. -/
def Action.is_urgent_ticket : Action → Bool
  | .create_urgent_ticket _ _ _ => true
  | _ => false

/-- The category → downstream mock action table, transcribed from the
dispatch table of the specification in order to compare it with the code's
dispatch behaviour. -/
def spec_dispatch_action (category : String) (email_id : String)
    (payload : Option String) : Action :=
  if category = "complaint" then .send_complaint_response email_id payload
  else if category = "inquiry" then .send_standard_response email_id payload
  else if category = "feedback" then .log_customer_feedback email_id payload
  else if category = "support_request" then .create_support_ticket email_id payload
  else .send_standard_response email_id payload

/-- A small email used to instantiate universally quantified theorems. -/
def tiny_email : Email :=
  { id := "t1", fromAddr := "a@b", subject := "subj", body := "some text",
    timestamp := "2024-01-01T00:00:00Z" }

/-- A stub provider whose every call raises. -/
def stub_error : Provider := fun _ => Except.error "LLM down"

/-- A stub provider that classifies every email as feedback and answers
every response prompt with a fixed message. -/
def stub_ok_feedback : Provider := fun prompt =>
  if startsWithStr "Please classify" prompt then Except.ok "feedback"
  else Except.ok "Thanks for your feedback"

/-- A stub provider that classifies every email as feedback and raises on
every response prompt. -/
def stub_feedback_then_error : Provider := fun prompt =>
  if startsWithStr "Please classify" prompt then Except.ok "feedback"
  else Except.error "LLM down"

theorem actionsOf_append (l1 l2 : List Event) :
    actionsOf (l1 ++ l2) = actionsOf l1 ++ actionsOf l2 :=
  List.filterMap_append ..

theorem actionsOf_nil : actionsOf [] = [] := rfl

theorem actionsOf_singleton_action (a : Action) :
    actionsOf [Event.action a] = [a] := rfl

theorem actionsOf_classify_email (p : Provider) (e : Email) :
    actionsOf (classify_email p e).2 = [] := by
  cases hpe : p (classification_prompt e) <;>
    simp [classify_email, hpe, actionsOf]

theorem actionsOf_generate_response (p : Provider) (e : Email) (c : String) :
    actionsOf (generate_response p e c).2 = [] := by
  cases hpe : p (response_prompt e c) <;>
    simp [generate_response, hpe, actionsOf]

theorem classify_email_mem (p : Provider) (e : Email) (c : String)
    (h : (classify_email p e).1 = some c) :
    valid_categories.contains c = true := by
  revert h
  cases hpe : p (classification_prompt e) <;>
    simp [classify_email, hpe]
  intro hmem heq
  subst heq
  simpa using hmem

theorem process_all_fst (emails : List Email) (sys : AutomationSystem) :
    (process_all sys emails).1 = sys := by
  induction emails generalizing sys with
  | nil => rfl
  | cons e rest ih => simp [process_all, process_email_st, ih]

end EmailClassifier

namespace EmailClassifier

/-- C1 counterexample: with a stubbed classifier returning the invalid text
"spam", the result record is not `{email_id, success:false,
classification:absent, response_sent:absent}` — the `response_sent` field
holds the boolean `False`, not the absent value `None`. -/
theorem C1_counterexample :
    (process_email (fun _ => Except.ok "spam") sample_email_002).1 ≠
      { email_id := "002", success := false, classification := none,
        response_sent := RespSent.noneV } := by
  decide

/-- C1 (amended): for every email whose classification call returns text not
in the valid category set, or raises an error, `process_email` returns
exactly the record `{email_id, success:false, classification:absent,
response_sent:boolean False}`, and no handler (hence no downstream mock
action) is invoked for that email. -/
theorem C1_classification_failure_result (p : Provider) (e : Email)
    (h : (classify_email p e).1 = none) :
    (process_email p e).1 =
      { email_id := e.id, success := false, classification := none,
        response_sent := RespSent.falseB } ∧
    actionsOf (process_email p e).2 = [] := by
  constructor
  · simp [process_email, h]
  · simp [process_email, h, actionsOf_classify_email]

/-- C1 witness: the amended claim at the "spam" stub and sample email 002. -/
theorem C1_witness :
    (process_email (fun _ => Except.ok "spam") sample_email_002).1 =
      { email_id := "002", success := false, classification := none,
        response_sent := RespSent.falseB } ∧
    actionsOf (process_email (fun _ => Except.ok "spam") sample_email_002).2 = [] :=
  C1_classification_failure_result (fun _ => Except.ok "spam") sample_email_002
    (by decide)

/-- C2 counterexample: on the classification-failure path the result has
`success = false` while `response_sent` is the boolean `False`, which is not
the absent value `None` — so "`response_sent` is non-absent only when
`success == true`" fails on this record. -/
theorem C2_counterexample :
    ¬ (((process_email stub_error sample_email_002).1.response_sent ≠
          RespSent.noneV) →
        (process_email stub_error sample_email_002).1.success = true) := by
  decide

/-- C2 (amended): every `ProcessingResult` produced by `process_email`
satisfies: `success == true` iff the classification is present, and
`response_sent` holds a response string only when `success == true` (on the
classification-failure path it is the boolean `False`, not the absent
`None`). -/
theorem C2_result_invariant (p : Provider) (e : Email) :
    ((process_email p e).1.success = true ↔
      ((process_email p e).1.classification).isSome = true) ∧
    (∀ s : String, (process_email p e).1.response_sent = RespSent.str s →
      (process_email p e).1.success = true) := by
  cases hc : (classify_email p e).1 with
  | none => simp [process_email, hc]
  | some c => simp [process_email, hc]

/-- C2 witness: the amended invariant at a stub whose classification and
response calls both succeed. -/
theorem C2_witness :
    ((process_email stub_ok_feedback tiny_email).1.success = true ↔
      ((process_email stub_ok_feedback tiny_email).1.classification).isSome = true) ∧
    (process_email stub_ok_feedback tiny_email).1.success = true :=
  ⟨(C2_result_invariant stub_ok_feedback tiny_email).1,
   (C2_result_invariant stub_ok_feedback tiny_email).2 "Thanks for your feedback"
     (by decide)⟩

/-- C6: any classification value not among the four explicitly mapped
categories — including "other" and any unexpected value — is routed by the
handler lookup to the same handler as the "other" category. -/
theorem C6_default_handler (c : String)
    (h : c ∉ (["complaint", "inquiry", "feedback", "support_request"] : List String)) :
    response_handlers_get c = response_handlers_get "other" := by
  simp only [List.mem_cons, List.not_mem_nil, or_false, not_or] at h
  obtain ⟨h1, h2, h3, h4⟩ := h
  simp [response_handlers_get, h1, h2, h3, h4]

/-- C6 witness: the unexpected value "spam" is routed as "other". -/
theorem C6_witness :
    "spam" ∉ (["complaint", "inquiry", "feedback", "support_request"] : List String) ∧
    response_handlers_get "spam" = response_handlers_get "other" :=
  ⟨by decide, C6_default_handler "spam" (by decide)⟩

/-- C7: for every email and every error raised by a provider call, both
`classify_email` and `generate_response` catch the error at the call site,
log it with its cause, and return an absent result; both are total functions
of the provider outcome, so no raised error ever reaches the caller. -/
theorem C7_provider_errors_caught (p : Provider) (e : Email)
    (c msg1 msg2 : String)
    (h1 : p (classification_prompt e) = Except.error msg1)
    (h2 : p (response_prompt e c) = Except.error msg2) :
    classify_email p e =
      (none, [Event.errorLog ("Error with the LLM provider: " ++ msg1)]) ∧
    generate_response p e c =
      (none, [Event.errorLog ("Error with the LLM provider: " ++ msg2)]) := by
  constructor
  · simp [classify_email, h1]
  · simp [generate_response, h2]

/-- C7 witness: the always-raising stub at a concrete email and category. -/
theorem C7_witness :
    classify_email stub_error tiny_email =
      (none, [Event.errorLog "Error with the LLM provider: LLM down"]) ∧
    generate_response stub_error tiny_email "other" =
      (none, [Event.errorLog "Error with the LLM provider: LLM down"]) :=
  C7_provider_errors_caught stub_error tiny_email "other" "LLM down" "LLM down"
    rfl rfl

theorem classify_email_cases (p : Provider) (e : Email) (c : String)
    (h : (classify_email p e).1 = some c) :
    c = "complaint" ∨ c = "inquiry" ∨ c = "feedback" ∨
      c = "support_request" ∨ c = "other" := by
  have hmem := classify_email_mem p e c h
  simpa [valid_categories] using hmem

/-- C3: for every email whose classification succeeds (with any of the five
producible categories) but whose response-generation call fails,
`process_email` still returns `success:true` with the obtained
classification and `response_sent` absent, and the category's downstream
mock action per the dispatch table still fires exactly once, with the
absent payload (e.g. classification "feedback" with a raising responder
still fires one log-customer-feedback action). -/
theorem C3_responder_failure_still_dispatches (p : Provider) (e : Email)
    (c : String)
    (h1 : (classify_email p e).1 = some c)
    (h2 : (generate_response p e c).1 = none) :
    (process_email p e).1 =
      { email_id := e.id, success := true, classification := some c,
        response_sent := RespSent.noneV } ∧
    actionsOf (process_email p e).2 =
      [spec_dispatch_action c e.id none] := by
  rcases classify_email_cases p e c h1 with rfl | rfl | rfl | rfl | rfl <;>
    constructor <;>
    simp [process_email, h1, response_handlers_get, run_handler, h2,
      spec_dispatch_action, actionsOf_append, actionsOf_classify_email,
      actionsOf_generate_response, actionsOf_singleton_action]

/-- C3 witness: a stub that classifies as feedback and raises on the
response prompt, at a concrete email — the lone action is the
log-customer-feedback one with the absent payload. -/
theorem C3_witness :
    (process_email stub_feedback_then_error tiny_email).1 =
      { email_id := tiny_email.id, success := true,
        classification := some "feedback",
        response_sent := RespSent.noneV } ∧
    actionsOf (process_email stub_feedback_then_error tiny_email).2 =
      [spec_dispatch_action "feedback" tiny_email.id none] :=
  C3_responder_failure_still_dispatches stub_feedback_then_error tiny_email
    "feedback" (by decide) (by decide)

/-- C4: for every email whose classification call returns a string whose
stripped, lowercased form is one of the five valid categories, the result
has `success == true` and `classification` equal to that normalized
value. -/
theorem C4_valid_classification_succeeds (p : Provider) (e : Email)
    (s : String)
    (hp : p (classification_prompt e) = Except.ok s)
    (hmem : valid_categories.contains (pyLower (pyStrip s)) = true) :
    (process_email p e).1.success = true ∧
    (process_email p e).1.classification = some (pyLower (pyStrip s)) := by
  have hmem2 : pyLower (pyStrip s) ∈ valid_categories := by simpa using hmem
  have hc : (classify_email p e).1 = some (pyLower (pyStrip s)) := by
    simp [classify_email, hp, hmem2]
  constructor <;> simp [process_email, hc]

/-- C4 witness: a stub returning "  Complaint " (padded, capitalized), which
normalizes to the valid category "complaint". -/
theorem C4_witness :
    (process_email (fun _ => Except.ok "  Complaint ") tiny_email).1.success = true ∧
    (process_email (fun _ => Except.ok "  Complaint ") tiny_email).1.classification =
      some (pyLower (pyStrip "  Complaint ")) :=
  C4_valid_classification_succeeds (fun _ => Except.ok "  Complaint ")
    tiny_email "  Complaint " rfl (by decide)

/-- C5: for any classification the classifier can produce, processing the
email invokes exactly one downstream mock action — the one given by the
spec's dispatch table (complaint → send complaint response, inquiry → send
standard response, feedback → log customer feedback, support_request →
create support ticket, other → send standard response). -/
theorem C5_dispatch_matches_table (p : Provider) (e : Email) (c : String)
    (h : (classify_email p e).1 = some c) :
    actionsOf (process_email p e).2 =
      [spec_dispatch_action c e.id (generate_response p e c).1] := by
  rcases classify_email_cases p e c h with rfl | rfl | rfl | rfl | rfl <;>
    simp [process_email, h, response_handlers_get, run_handler,
      spec_dispatch_action, actionsOf_append, actionsOf_classify_email,
      actionsOf_generate_response, actionsOf_singleton_action]

/-- C5 witness: a concrete support_request run fires exactly the
create-support-ticket action. -/
theorem C5_witness :
    actionsOf (process_email (fun _ => Except.ok "support_request") tiny_email).2 =
      [spec_dispatch_action "support_request" tiny_email.id
        (generate_response (fun _ => Except.ok "support_request") tiny_email
          "support_request").1] :=
  C5_dispatch_matches_table (fun _ => Except.ok "support_request") tiny_email
    "support_request" (by decide)

/-- C8: with a deterministic provider, running the orchestrator loop a
second time over the same ordered email list — starting from the system
state the first run left behind — produces the identical ordered sequence
of results. -/
theorem C8_rerun_is_identical (sys : AutomationSystem) (emails : List Email) :
    (process_all sys emails).2.1 =
      (process_all (process_all sys emails).1 emails).2.1 := by
  rw [process_all_fst]

theorem run_handler_no_urgent (p : Provider) (tag : HandlerTag) (e : Email) :
    (actionsOf (run_handler p tag e).2).all
      (fun a => !a.is_urgent_ticket) = true := by
  cases tag <;>
    simp [run_handler, actionsOf_append, actionsOf_generate_response,
      actionsOf_singleton_action, Action.is_urgent_ticket]

theorem process_email_no_urgent (p : Provider) (e : Email) :
    (actionsOf (process_email p e).2).all
      (fun a => !a.is_urgent_ticket) = true := by
  cases hc : (classify_email p e).1 with
  | none => simp [process_email, hc, actionsOf_classify_email]
  | some c =>
      simp only [process_email, hc, actionsOf_append, List.all_append]
      simp [actionsOf_classify_email, run_handler_no_urgent]

theorem process_all_no_urgent (emails : List Email) (sys : AutomationSystem) :
    (actionsOf (process_all sys emails).2.2).all
      (fun a => !a.is_urgent_ticket) = true := by
  induction emails generalizing sys with
  | nil => simp [process_all, actionsOf]
  | cons e rest ih =>
      simp only [process_all, process_email_st, actionsOf_append,
        List.all_append]
      simp [process_email_no_urgent, ih]

/-- C9: the create-urgent-ticket mock action never fires — not from
`process_email` on any email with any provider, and not anywhere in the
demonstration driver's run over the sample emails. -/
theorem C9_urgent_ticket_never_fires (p : Provider) :
    (∀ e : Email, (actionsOf (process_email p e).2).all
      (fun a => !a.is_urgent_ticket) = true) ∧
    (actionsOf (run_demonstration p).2).all
      (fun a => !a.is_urgent_ticket) = true :=
  ⟨fun e => process_email_no_urgent p e,
   process_all_no_urgent sample_emails { provider := p }⟩

/-- C10: the two failure modes use different sentinel values in
`response_sent`: classification failure yields the boolean `False`, while a
successful classification with a failed response generation yields the
absent value `None`; the two constructors are distinct, so the outcomes are
distinguishable by that field alone. -/
theorem C10_distinct_failure_sentinels (p : Provider) (e : Email) :
    ((classify_email p e).1 = none →
      (process_email p e).1.response_sent = RespSent.falseB) ∧
    (∀ c : String, (classify_email p e).1 = some c →
      (generate_response p e c).1 = none →
      (process_email p e).1.response_sent = RespSent.noneV) ∧
    RespSent.falseB ≠ RespSent.noneV := by
  refine ⟨fun h => by simp [process_email, h], fun c hc hg => ?_, by decide⟩
  rcases classify_email_cases p e c hc with rfl | rfl | rfl | rfl | rfl <;>
    simp [process_email, hc, response_handlers_get, run_handler, hg]

/-- C10 witness: a failing classifier yields the boolean `False`, and a
feedback classification with a failing responder yields `None`. -/
theorem C10_witness :
    (process_email stub_error tiny_email).1.response_sent = RespSent.falseB ∧
    (process_email stub_feedback_then_error tiny_email).1.response_sent =
      RespSent.noneV :=
  ⟨(C10_distinct_failure_sentinels stub_error tiny_email).1 (by decide),
   (C10_distinct_failure_sentinels stub_feedback_then_error tiny_email).2.1
     "feedback" (by decide) (by decide)⟩

end EmailClassifier
